import Mathlib

/-!
# Verification of the go-migrate orchestration core (src/main.go)

This file shallowly embeds the single Go source file of the repository:

* `Project` mirrors the `Project` struct.
* `cloneArgs` mirrors the argument list built by
  `exec.Command("git", "svn", "clone", ...)` in `migrate` (exec.Command
  stores the command name itself as `Args[0]`).
* `migrateEvents` is a trace semantics of the body of `migrate`: given the
  outcomes of the external operations (stat, log creation, the external
  commands, the two directory changes) it returns the ordered list of
  observable effects, including the deferred actions in the order Go runs
  them (last registered first).
* `TaskPC` / `SysState` / `Step` give an interleaving small-step semantics
  of N concurrent `migrate` tasks sharing the single mutex `mu`, for the
  mutual-exclusion claim.
* `Queue` / `RunState` / `QStep` give an interleaving semantics of `main`
  plus the tasks' `queue.Done()` calls, at the granularity of the memory
  accesses Go actually performs (`wg.Done()` then the unsynchronized
  `q.Complete++`, which is a separate read and write), for the
  progress-counter claim.
-/

set_option autoImplicit false

namespace GoMigrate

/-- The `Project` struct of main.go: svn source location, name, and the
standard-layout flag. -/
structure Project where
  SVN : String
  Name : String
  Standard : Bool
deriving DecidableEq, Repr

/-- The `std` variable of `migrate`: `"-s"` for a standard project, the
empty string otherwise. -/
def stdFlag (p : Project) : String :=
  if p.Standard then "-s" else ""

/-- `migration.Args` of the clone command
`exec.Command("git", "svn", "clone", project.SVN, "--authors-file=users.txt",
"--no-metadata", "--prefix", std, project.Name)`; Go's `exec.Command`
places the command name first. -/
def cloneArgs (p : Project) : List String :=
  ["git", "svn", "clone", p.SVN, "--authors-file=users.txt", "--no-metadata",
   "--prefix", stdFlag p, p.Name]

/-- The `oldBranch` variable of `migrate`: `"git-svn"` unless the project is
standard, in which case `"trunk"`. -/
def oldBranch (p : Project) : String :=
  if p.Standard then "trunk" else "git-svn"

/-- Go's `path.Join` on two components (the cleaning pass of `path.Join` is
irrelevant here: no claim inspects the inside of a joined path). -/
def pathJoin (a b : String) : String :=
  a ++ "/" ++ b

/-- Outcomes of the external operations `migrate` performs, one field per
fallible call in source order.  `isDir` records whether the entry found by
`os.Stat` is a directory; the code only tests `err == nil`, so whether the
entry is a directory is never consulted. -/
structure Env where
  statOk : Bool
  isDir : Bool
  createOk : Bool
  cloneOk : Bool
  chdirInOk : Bool
  tagsOk : Bool
  branchesOk : Bool
  pegsOk : Bool
  delOk : Bool
  chdirBackOk : Bool
deriving DecidableEq, Repr

/-- Observable effects of one `migrate` call. -/
inductive Event where
  | skipMsg (name : String)
  | createLog (name : String)
  | runCmd (args : List String) (ok : Bool)
  | lockAcquire
  | chdirDir (dir : String) (ok : Bool)
  | lockRelease
  | closeLog
  | reportDone (name : String)
deriving DecidableEq, Repr

/-- Trace semantics of `migrate(project)` from main.go, for one task in
isolation.  Deferred calls run in reverse registration order at every
return: `mu.Unlock` (when `mu.Lock` ran), then `out.Close` (when the log
was created), then `queue.Done()` with its progress line. -/
def migrateEvents (basePath bashPath : String) (p : Project) (env : Env) :
    List Event :=
  if env.statOk then
    [Event.skipMsg p.Name, Event.reportDone p.Name]
  else if !env.createOk then
    [Event.reportDone p.Name]
  else
    Event.createLog p.Name ::
    Event.runCmd (cloneArgs p) env.cloneOk ::
    if !env.cloneOk then
      [Event.closeLog, Event.reportDone p.Name]
    else
      Event.lockAcquire ::
      Event.chdirDir (pathJoin basePath p.Name) env.chdirInOk ::
      if !env.chdirInOk then
        [Event.lockRelease, Event.closeLog, Event.reportDone p.Name]
      else
        Event.runCmd [bashPath, pathJoin basePath "tags.sh"] env.tagsOk ::
        Event.runCmd [bashPath, pathJoin basePath "branches.sh"] env.branchesOk ::
        Event.runCmd [bashPath, pathJoin basePath "pegs.sh"] env.pegsOk ::
        Event.runCmd ["git", "branch", "-d", oldBranch p] env.delOk ::
        Event.chdirDir basePath env.chdirBackOk ::
        [Event.lockRelease, Event.closeLog, Event.reportDone p.Name]

/-- A concrete standard-layout project, used to exercise the clone
argument list. -/
def pStd : Project :=
  { SVN := "svn://example.com/repo/a", Name := "proja", Standard := true }

/-- A concrete non-standard project. -/
def pNonStd : Project :=
  { SVN := "svn://example.com/repo/b", Name := "projb", Standard := false }

/-- C5 counterexample: the claim says the variant-dependent prefix flag is
present when and only when the project is non-standard, but for the
standard-layout project `pStd` the clone argument list does contain
`--prefix` followed by the flag value `-s`, so presence of the flag is not
equivalent to being non-standard. -/
theorem c5_counterexample :
    ¬ ((∃ i, (cloneArgs pStd).get? i = some "--prefix" ∧
          (cloneArgs pStd).get? (i + 1) = some "-s")
        ↔ pStd.Standard = false) := by
  intro h
  have hfalse : pStd.Standard = false := h.mp ⟨6, rfl, rfl⟩
  simp [pStd] at hfalse

/-- C5 (amended): the clone command is parameterized by the project's
source location, the authors-mapping file path, the `--no-metadata` flag,
and the `--prefix` flag, which is always present; its value is `-s` when
and only when the project is standard-layout, and the empty string for a
non-standard project. -/
theorem c5_clone_parameterization (p : Project) :
    (cloneArgs p).get? 3 = some p.SVN ∧
    (cloneArgs p).get? 4 = some "--authors-file=users.txt" ∧
    (cloneArgs p).get? 5 = some "--no-metadata" ∧
    (cloneArgs p).get? 6 = some "--prefix" ∧
    ((cloneArgs p).get? 7 = some "-s" ↔ p.Standard = true) ∧
    (p.Standard = false → (cloneArgs p).get? 7 = some "") := by
  refine ⟨rfl, rfl, rfl, rfl, ?_, ?_⟩ <;>
    cases hs : p.Standard <;> simp [cloneArgs, stdFlag, hs]

/-- C6: the clone invocation's argument list contains the standard-prefix
flag `-s` (the argument `--prefix` immediately followed by the value `-s`)
if and only if the project is standard-layout. -/
theorem c6_std_flag_iff_standard (p : Project) :
    (∃ i, (cloneArgs p).get? i = some "--prefix" ∧
      (cloneArgs p).get? (i + 1) = some "-s")
    ↔ p.Standard = true := by
  constructor
  · rintro ⟨i, h1, h2⟩
    rcases i with _ | _ | _ | _ | _ | _ | _ | _ | _ | i <;>
      simp [cloneArgs, stdFlag] at h1 h2 ⊢
    · exact h2
    · cases hs : p.Standard <;> simp [hs] at h1
  · intro h
    exact ⟨6, rfl, by simp [cloneArgs, stdFlag, h]⟩

/-- C9: the clone argument list always contains the literal argument
`--prefix` immediately followed by a value argument, `-s` for a
standard-layout project and the empty string for a non-standard one. -/
theorem c9_explicit_empty_value (p : Project) :
    ∃ i, (cloneArgs p).get? i = some "--prefix" ∧
      (cloneArgs p).get? (i + 1) =
        some (if p.Standard then "-s" else "") :=
  ⟨6, rfl, rfl⟩

/-- All external operations succeed; no pre-existing entry. -/
def envAllOk : Env :=
  { statOk := false, isDir := false, createOk := true, cloneOk := true,
    chdirInOk := true, tagsOk := true, branchesOk := true, pegsOk := true,
    delOk := true, chdirBackOk := true }

/-- Clone succeeds but the change into the project directory fails. -/
def envChdirFail : Env :=
  { envAllOk with chdirInOk := false }

/-- The tag-conversion command fails; everything else succeeds. -/
def envTagsFail : Env :=
  { envAllOk with tagsOk := false }

/-- The stale-branch deletion fails; everything else succeeds. -/
def envDelFail : Env :=
  { envAllOk with delOk := false }

/-- A directory with the project's name already exists at the base path. -/
def envExisting : Env :=
  { envAllOk with statOk := true, isDir := true }

/-- A plain (non-directory) entry with the project's name exists at the
base path. -/
def envLeftoverFile : Env :=
  { envAllOk with statOk := true, isDir := false }

/-- C3 counterexample: for the project `pStd` whose clone step succeeds but
whose change into the project directory fails, the tag-conversion job does
not execute, so the claim that the three cleanup jobs execute for every
project with a successful clone is false at this input. -/
theorem c3_counterexample :
    (envChdirFail.statOk = false ∧ envChdirFail.createOk = true ∧
      envChdirFail.cloneOk = true) ∧
    Event.runCmd ["/bin/bash", pathJoin "/base" "tags.sh"] envChdirFail.tagsOk ∉
      migrateEvents "/base" "/bin/bash" pStd envChdirFail := by
  refine ⟨⟨rfl, rfl, rfl⟩, ?_⟩
  decide

/-- C3 (amended): for every project whose clone step succeeds and whose
directory change into the project's subdirectory succeeds, the trace is
exactly: log creation, the clone, lock acquisition, the change into the
project directory, the three cleanup jobs in the order tags, branches,
pegs, the stale-branch deletion, the change back to the base path, and
only then the lock release — so the jobs run in the fixed order, bracketed
by the two directory changes, within a single hold of the mutex. -/
theorem c3_cleanup_bracketed (b bsh : String) (p : Project) (env : Env)
    (hstat : env.statOk = false) (hcreate : env.createOk = true)
    (hclone : env.cloneOk = true) (hchdir : env.chdirInOk = true) :
    migrateEvents b bsh p env =
      [Event.createLog p.Name,
       Event.runCmd (cloneArgs p) true,
       Event.lockAcquire,
       Event.chdirDir (pathJoin b p.Name) true,
       Event.runCmd [bsh, pathJoin b "tags.sh"] env.tagsOk,
       Event.runCmd [bsh, pathJoin b "branches.sh"] env.branchesOk,
       Event.runCmd [bsh, pathJoin b "pegs.sh"] env.pegsOk,
       Event.runCmd ["git", "branch", "-d", oldBranch p] env.delOk,
       Event.chdirDir b env.chdirBackOk,
       Event.lockRelease, Event.closeLog, Event.reportDone p.Name] := by
  simp [migrateEvents, hstat, hcreate, hclone, hchdir]

/-- C3 witness: the amended bracketing theorem applied to the concrete
project `pStd` with every external operation succeeding. -/
theorem c3_cleanup_bracketed_witness :
    migrateEvents "/base" "/bin/bash" pStd envAllOk =
      [Event.createLog "proja",
       Event.runCmd (cloneArgs pStd) true,
       Event.lockAcquire,
       Event.chdirDir (pathJoin "/base" "proja") true,
       Event.runCmd ["/bin/bash", pathJoin "/base" "tags.sh"] true,
       Event.runCmd ["/bin/bash", pathJoin "/base" "branches.sh"] true,
       Event.runCmd ["/bin/bash", pathJoin "/base" "pegs.sh"] true,
       Event.runCmd ["git", "branch", "-d", oldBranch pStd] true,
       Event.chdirDir "/base" true,
       Event.lockRelease, Event.closeLog, Event.reportDone "proja"] :=
  c3_cleanup_bracketed "/base" "/bin/bash" pStd envAllOk rfl rfl rfl rfl

/-- C4: for every project that reaches the cleanup phase (stat found
nothing, log creation, clone, and the change into the project directory
succeeded), whatever the outcomes of the individual cleanup commands —
including a failing tag conversion — the branch-conversion, peg-cleanup,
and stale-branch-deletion commands all still execute and the task still
reports completion. -/
theorem c4_cleanup_step_independence (b bsh : String) (p : Project)
    (env : Env) (hstat : env.statOk = false) (hcreate : env.createOk = true)
    (hclone : env.cloneOk = true) (hchdir : env.chdirInOk = true) :
    Event.runCmd [bsh, pathJoin b "branches.sh"] env.branchesOk ∈
        migrateEvents b bsh p env ∧
    Event.runCmd [bsh, pathJoin b "pegs.sh"] env.pegsOk ∈
        migrateEvents b bsh p env ∧
    Event.runCmd ["git", "branch", "-d", oldBranch p] env.delOk ∈
        migrateEvents b bsh p env ∧
    Event.reportDone p.Name ∈ migrateEvents b bsh p env := by
  simp [migrateEvents, hstat, hcreate, hclone, hchdir]

/-- C4 witness: with the tag conversion failing for the concrete project
`pStd`, the later cleanup commands still appear in the trace. -/
theorem c4_cleanup_step_independence_witness :
    envTagsFail.tagsOk = false ∧
    (Event.runCmd ["/bin/bash", pathJoin "/base" "branches.sh"] true ∈
        migrateEvents "/base" "/bin/bash" pStd envTagsFail ∧
     Event.runCmd ["/bin/bash", pathJoin "/base" "pegs.sh"] true ∈
        migrateEvents "/base" "/bin/bash" pStd envTagsFail ∧
     Event.runCmd ["git", "branch", "-d", oldBranch pStd] true ∈
        migrateEvents "/base" "/bin/bash" pStd envTagsFail ∧
     Event.reportDone "proja" ∈
        migrateEvents "/base" "/bin/bash" pStd envTagsFail) :=
  ⟨rfl,
   c4_cleanup_step_independence "/base" "/bin/bash" pStd envTagsFail
     rfl rfl rfl rfl⟩

/-- C7: for every project that reaches the cleanup phase, exactly one
stale-branch deletion occurs in the trace; it targets `trunk` when the
project is standard-layout and `git-svn` otherwise, and even when it fails
the change back to the base path and the completion report still occur. -/
theorem c7_stale_branch_deletion (b bsh : String) (p : Project) (env : Env)
    (hstat : env.statOk = false) (hcreate : env.createOk = true)
    (hclone : env.cloneOk = true) (hchdir : env.chdirInOk = true) :
    (migrateEvents b bsh p env).count
        (Event.runCmd ["git", "branch", "-d", oldBranch p] env.delOk) = 1 ∧
    oldBranch p = (if p.Standard then "trunk" else "git-svn") ∧
    Event.chdirDir b env.chdirBackOk ∈ migrateEvents b bsh p env ∧
    Event.reportDone p.Name ∈ migrateEvents b bsh p env := by
  refine ⟨?_, rfl, ?_, ?_⟩ <;>
    simp [migrateEvents, hstat, hcreate, hclone, hchdir, List.count_cons,
      cloneArgs]

/-- C7 witness: with the stale-branch deletion failing for the concrete
standard project `pStd`, exactly one deletion targeting `trunk` is in the
trace and the task still changes back to base and reports completion. -/
theorem c7_stale_branch_deletion_witness :
    (migrateEvents "/base" "/bin/bash" pStd envDelFail).count
        (Event.runCmd ["git", "branch", "-d", oldBranch pStd] false) = 1 ∧
    oldBranch pStd = (if pStd.Standard then "trunk" else "git-svn") ∧
    Event.chdirDir "/base" true ∈
        migrateEvents "/base" "/bin/bash" pStd envDelFail ∧
    Event.reportDone "proja" ∈
        migrateEvents "/base" "/bin/bash" pStd envDelFail :=
  c7_stale_branch_deletion "/base" "/bin/bash" pStd envDelFail rfl rfl rfl rfl

/-- C8: for every project for which a directory with the project's name
already exists at the base path, the trace is exactly the skip message
followed by the completion report: no command of any kind is invoked, no
log file is created, and completion is still reported. -/
theorem c8_skip_existing (b bsh : String) (p : Project) (env : Env)
    (hstat : env.statOk = true) (_hdir : env.isDir = true) :
    migrateEvents b bsh p env = [Event.skipMsg p.Name, Event.reportDone p.Name] ∧
    (∀ args ok, Event.runCmd args ok ∉ migrateEvents b bsh p env) ∧
    Event.createLog p.Name ∉ migrateEvents b bsh p env ∧
    Event.reportDone p.Name ∈ migrateEvents b bsh p env := by
  simp [migrateEvents, hstat]

/-- C8 witness: the skip theorem applied to the concrete project `pStd`
with a pre-existing directory. -/
theorem c8_skip_existing_witness :
    migrateEvents "/base" "/bin/bash" pStd envExisting =
        [Event.skipMsg "proja", Event.reportDone "proja"] ∧
    (∀ args ok, Event.runCmd args ok ∉
        migrateEvents "/base" "/bin/bash" pStd envExisting) ∧
    Event.createLog "proja" ∉
        migrateEvents "/base" "/bin/bash" pStd envExisting ∧
    Event.reportDone "proja" ∈
        migrateEvents "/base" "/bin/bash" pStd envExisting :=
  c8_skip_existing "/base" "/bin/bash" pStd envExisting rfl rfl

/-- C10: the skip check only tests whether `os.Stat` succeeded, so a plain
non-directory entry with the project's name also causes the project to be
treated as already migrated: the trace is the skip message and the
completion report, with no command invoked and no log created. -/
theorem c10_skip_plain_file (b bsh : String) (p : Project) (env : Env)
    (hstat : env.statOk = true) (_hfile : env.isDir = false) :
    migrateEvents b bsh p env = [Event.skipMsg p.Name, Event.reportDone p.Name] ∧
    (∀ args ok, Event.runCmd args ok ∉ migrateEvents b bsh p env) ∧
    Event.createLog p.Name ∉ migrateEvents b bsh p env ∧
    Event.reportDone p.Name ∈ migrateEvents b bsh p env := by
  simp [migrateEvents, hstat]

/-- C10 witness: the plain-file skip theorem applied to the concrete
project `pStd` with a leftover non-directory entry. -/
theorem c10_skip_plain_file_witness :
    migrateEvents "/base" "/bin/bash" pStd envLeftoverFile =
        [Event.skipMsg "proja", Event.reportDone "proja"] ∧
    (∀ args ok, Event.runCmd args ok ∉
        migrateEvents "/base" "/bin/bash" pStd envLeftoverFile) ∧
    Event.createLog "proja" ∉
        migrateEvents "/base" "/bin/bash" pStd envLeftoverFile ∧
    Event.reportDone "proja" ∈
        migrateEvents "/base" "/bin/bash" pStd envLeftoverFile :=
  c10_skip_plain_file "/base" "/bin/bash" pStd envLeftoverFile rfl rfl

/-- Program counter of one `migrate` task, at the granularity of the
actions relevant to the mutex `mu`: everything before `mu.Lock()` is
`running` (stat check, log creation, clone) or `cloned` (clone succeeded,
about to call `mu.Lock()`); the labels starting with `cs` are the
statements executed while the task holds `mu`, from the `os.Chdir` into
the project directory to the function return that triggers the deferred
`mu.Unlock()`. -/
inductive TaskPC where
  | running
  | cloned
  | csChdir
  | csTags
  | csBranches
  | csPegs
  | csDel
  | csChdirBack
  | csReturn
  | finished
deriving DecidableEq, Repr

/-- Whether a program counter lies inside the cleanup span guarded by
`mu`: from the change into the project directory through the return that
runs the deferred unlock. -/
def inCS : TaskPC → Bool
  | TaskPC.running => false
  | TaskPC.cloned => false
  | TaskPC.finished => false
  | _ => true

/-- Global state of a run with `n` concurrent `migrate` tasks: the holder
of the mutex `mu` (`none` when free) and each task's program counter. -/
structure SysState (n : Nat) where
  owner : Option (Fin n)
  pc : Fin n → TaskPC

/-- Initial state: `mu` free, every task before its first action. -/
def sysInit (n : Nat) : SysState n :=
  { owner := none, pc := fun _ => TaskPC.running }

/-- Interleaving small-step semantics of the `n` tasks.  A task leaves
`running` either by terminating early (pre-existing directory, log
creation failure, clone failure — all return without ever touching `mu`)
or by finishing its clone; `mu.Lock()` blocks until no task holds the
mutex; every statement between the lock and the deferred unlock requires
the mutex to be held by the stepping task; a failed `os.Chdir` into the
project directory returns early, which still runs the deferred unlock. -/
inductive Step (n : Nat) : SysState n → SysState n → Prop where
  | exitEarly (s : SysState n) (i : Fin n) :
      s.pc i = TaskPC.running →
      Step n s { s with pc := Function.update s.pc i TaskPC.finished }
  | cloneOk (s : SysState n) (i : Fin n) :
      s.pc i = TaskPC.running →
      Step n s { s with pc := Function.update s.pc i TaskPC.cloned }
  | lock (s : SysState n) (i : Fin n) :
      s.pc i = TaskPC.cloned → s.owner = none →
      Step n s { owner := some i, pc := Function.update s.pc i TaskPC.csChdir }
  | chdirInFail (s : SysState n) (i : Fin n) :
      s.pc i = TaskPC.csChdir → s.owner = some i →
      Step n s { s with pc := Function.update s.pc i TaskPC.csReturn }
  | chdirInOk (s : SysState n) (i : Fin n) :
      s.pc i = TaskPC.csChdir → s.owner = some i →
      Step n s { s with pc := Function.update s.pc i TaskPC.csTags }
  | tagsDone (s : SysState n) (i : Fin n) :
      s.pc i = TaskPC.csTags → s.owner = some i →
      Step n s { s with pc := Function.update s.pc i TaskPC.csBranches }
  | branchesDone (s : SysState n) (i : Fin n) :
      s.pc i = TaskPC.csBranches → s.owner = some i →
      Step n s { s with pc := Function.update s.pc i TaskPC.csPegs }
  | pegsDone (s : SysState n) (i : Fin n) :
      s.pc i = TaskPC.csPegs → s.owner = some i →
      Step n s { s with pc := Function.update s.pc i TaskPC.csDel }
  | delDone (s : SysState n) (i : Fin n) :
      s.pc i = TaskPC.csDel → s.owner = some i →
      Step n s { s with pc := Function.update s.pc i TaskPC.csChdirBack }
  | chdirBackDone (s : SysState n) (i : Fin n) :
      s.pc i = TaskPC.csChdirBack → s.owner = some i →
      Step n s { s with pc := Function.update s.pc i TaskPC.csReturn }
  | unlock (s : SysState n) (i : Fin n) :
      s.pc i = TaskPC.csReturn → s.owner = some i →
      Step n s { owner := none, pc := Function.update s.pc i TaskPC.finished }

/-- States reachable from the initial state of an `n`-task run. -/
inductive SysReach (n : Nat) : SysState n → Prop where
  | init : SysReach n (sysInit n)
  | step {s t : SysState n} : SysReach n s → Step n s t → SysReach n t

/-- The lock invariant: any task inside the guarded cleanup span is the
current mutex holder. -/
def lockInv {n : Nat} (s : SysState n) : Prop :=
  ∀ i : Fin n, inCS (s.pc i) = true → s.owner = some i

theorem lockInv_init (n : Nat) : lockInv (sysInit n) := by
  intro i hi
  simp [sysInit, inCS] at hi

theorem lockInv_update_held {n : Nat} {s : SysState n} (hinv : lockInv s)
    {j : Fin n} (hown : s.owner = some j) (v : TaskPC) :
    lockInv { s with pc := Function.update s.pc j v } := by
  intro i hi
  dsimp only at hi ⊢
  by_cases hij : i = j
  · subst hij; exact hown
  · rw [Function.update_noteq hij] at hi
    exact hinv i hi

theorem lockInv_update_out {n : Nat} {s : SysState n} (hinv : lockInv s)
    (j : Fin n) (v : TaskPC) (hv : inCS v = false) :
    lockInv { s with pc := Function.update s.pc j v } := by
  intro i hi
  dsimp only at hi ⊢
  by_cases hij : i = j
  · subst hij
    rw [Function.update_same, hv] at hi
    exact absurd hi (by simp)
  · rw [Function.update_noteq hij] at hi
    exact hinv i hi

theorem lockInv_step {n : Nat} {s t : SysState n} (hinv : lockInv s)
    (hst : Step n s t) : lockInv t := by
  cases hst with
  | exitEarly j hpc => exact lockInv_update_out hinv j TaskPC.finished rfl
  | cloneOk j hpc => exact lockInv_update_out hinv j TaskPC.cloned rfl
  | lock j hpc hown =>
      intro i hi
      dsimp only at hi ⊢
      by_cases hij : i = j
      · subst hij; rfl
      · rw [Function.update_noteq hij] at hi
        have hsi := hinv i hi
        rw [hown] at hsi
        exact absurd hsi (by simp)
  | chdirInFail j hpc hown => exact lockInv_update_held hinv hown TaskPC.csReturn
  | chdirInOk j hpc hown => exact lockInv_update_held hinv hown TaskPC.csTags
  | tagsDone j hpc hown => exact lockInv_update_held hinv hown TaskPC.csBranches
  | branchesDone j hpc hown => exact lockInv_update_held hinv hown TaskPC.csPegs
  | pegsDone j hpc hown => exact lockInv_update_held hinv hown TaskPC.csDel
  | delDone j hpc hown => exact lockInv_update_held hinv hown TaskPC.csChdirBack
  | chdirBackDone j hpc hown => exact lockInv_update_held hinv hown TaskPC.csReturn
  | unlock j hpc hown =>
      intro i hi
      dsimp only at hi ⊢
      by_cases hij : i = j
      · subst hij
        rw [Function.update_same] at hi
        exact absurd hi (by simp [inCS])
      · rw [Function.update_noteq hij] at hi
        have hsi := hinv i hi
        rw [hown] at hsi
        exact ((hij (Option.some.inj hsi).symm).elim)

theorem sysReach_lockInv {n : Nat} {s : SysState n} (h : SysReach n s) :
    lockInv s := by
  induction h with
  | init => exact lockInv_init n
  | step _ hst ih => exact lockInv_step ih hst

/-- C1: in every reachable state of a run with `n` concurrent tasks, any
two tasks inside the mutex-guarded cleanup span (from the change into the
project directory through the return that runs the deferred unlock,
covering the tags, branches, pegs, and stale-branch-deletion commands)
are the same task: at most one task executes cleanup at any instant. -/
theorem c1_mutual_exclusion (n : Nat) (s : SysState n) (h : SysReach n s)
    (i j : Fin n) (hi : inCS (s.pc i) = true) (hj : inCS (s.pc j) = true) :
    i = j := by
  have hinv := sysReach_lockInv h
  have h1 := hinv i hi
  have h2 := hinv j hj
  rw [h1] at h2
  exact Option.some.inj h2

/-- The state of a two-task run in which task 0 has cloned, acquired the
mutex, and is about to change into its project directory. -/
def c1WitState : SysState 2 :=
  { owner := some 0,
    pc := Function.update (Function.update (fun _ => TaskPC.running) 0
            TaskPC.cloned) 0 TaskPC.csChdir }

/-- C1 witness: the mutual-exclusion theorem applied to a concrete
reachable two-task state with task 0 inside the cleanup span. -/
theorem c1_mutual_exclusion_witness :
    inCS (c1WitState.pc 0) = true ∧ (0 : Fin 2) = 0 :=
  ⟨by decide,
   c1_mutual_exclusion 2 c1WitState
     (SysReach.step
       (SysReach.step SysReach.init (Step.cloneOk (sysInit 2) 0 (by decide)))
       (Step.lock _ 0 (by decide) rfl))
     0 0 (by decide) (by decide)⟩

/-- The `Queue` struct of main.go: the `sync.WaitGroup`'s counter together
with the exported `Complete` and `Total` fields. -/
structure Queue where
  wg : Nat
  complete : Nat
  total : Nat
deriving DecidableEq, Repr

/-- `Queue.Add(1)`: `wg.Add(1)` and `Total++`, executed by the `main`
goroutine before each `go migrate(project)`. -/
def Queue.add (q : Queue) : Queue :=
  { q with wg := q.wg + 1, total := q.total + 1 }

/-- Where one task stands with respect to its deferred `queue.Done()`
call.  `Queue.Done` is `q.wg.Done()` followed by `q.Complete++`; the
increment is not protected by any lock and compiles to a read of
`Complete` followed by a write, so it is modelled as two separate steps
with the read value recorded in the stage. -/
inductive TStage where
  | idle
  | body
  | calledWgDone
  | readComplete (v : Nat)
  | finished
deriving DecidableEq, Repr

/-- Global state of a run of `main` with `n` configured projects. -/
structure RunState (n : Nat) where
  q : Queue
  spawned : Nat
  mainDone : Bool
  task : Fin n → TStage
deriving DecidableEq

/-- Before the spawn loop: counters zero, no task spawned, `wg.Wait()` not
yet returned. -/
def runInit (n : Nat) : RunState n :=
  { q := { wg := 0, complete := 0, total := 0 }, spawned := 0,
    mainDone := false, task := fun _ => TStage.idle }

/-- Interleaving semantics of `main` and the `n` tasks' completions.
`spawn` is one iteration of the loop in `main` (`queue.Add(1)` then
`go migrate(project)`); `wgDone`, `readComplete` and `writeComplete` are
the constituent effects of a task's deferred `queue.Done()`, in source
order (`wg.Done()` first, then the unsynchronized `Complete++` as a read
followed by a write); `waitReturns` is `queue.wg.Wait()` unblocking, which
only requires the spawn loop to be finished and the WaitGroup counter to
be zero. -/
inductive QStep (n : Nat) : RunState n → RunState n → Prop where
  | spawn (s : RunState n) (h : s.spawned < n) :
      QStep n s
        { s with
            q := s.q.add,
            spawned := s.spawned + 1,
            task := Function.update s.task ⟨s.spawned, h⟩ TStage.body }
  | wgDone (s : RunState n) (i : Fin n) :
      s.task i = TStage.body →
      QStep n s
        { s with
            q := { s.q with wg := s.q.wg - 1 },
            task := Function.update s.task i TStage.calledWgDone }
  | readComplete (s : RunState n) (i : Fin n) :
      s.task i = TStage.calledWgDone →
      QStep n s
        { s with
            task := Function.update s.task i
              (TStage.readComplete s.q.complete) }
  | writeComplete (s : RunState n) (i : Fin n) (v : Nat) :
      s.task i = TStage.readComplete v →
      QStep n s
        { s with
            q := { s.q with complete := v + 1 },
            task := Function.update s.task i TStage.finished }
  | waitReturns (s : RunState n) :
      s.spawned = n → s.q.wg = 0 → s.mainDone = false →
      QStep n s { s with mainDone := true }

/-- States reachable in a run of `main` over `n` projects. -/
inductive QReach (n : Nat) : RunState n → Prop where
  | init : QReach n (runInit n)
  | step {s t : RunState n} : QReach n s → QStep n s t → QReach n t

/-- C2 fails on the code: in a run over 2 projects there is a reachable
state in which `wg.Wait()` has returned and both tasks have fully
finished, yet `Complete = 1` while `Total = 2` — the two unsynchronized
`Complete++` increments both read 0 and both write 1, losing one
completion, so after the coordinator's wait-all returns the completed
counter need not equal the total counter. -/
theorem c2_lost_update : ∃ s : RunState 2, QReach 2 s ∧
    s.mainDone = true ∧ s.q.total = 2 ∧ s.q.complete = 1 ∧
    s.task 0 = TStage.finished ∧ s.task 1 = TStage.finished := by
  have h0 : QReach 2 (runInit 2) := QReach.init
  have h1 := QReach.step h0 (QStep.spawn _ (by decide))
  have h2 := QReach.step h1 (QStep.spawn _ (by decide))
  have h3 := QReach.step h2 (QStep.wgDone _ 0 (by decide))
  have h4 := QReach.step h3 (QStep.wgDone _ 1 (by decide))
  have h5 := QReach.step h4 (QStep.readComplete _ 0 (by decide))
  have h6 := QReach.step h5 (QStep.readComplete _ 1 (by decide))
  have h7 := QReach.step h6 (QStep.writeComplete _ 0 0 (by decide))
  have h8 := QReach.step h7 (QStep.writeComplete _ 1 0 (by decide))
  have h9 := QReach.step h8 (QStep.waitReturns _ (by decide) (by decide)
    (by decide))
  exact ⟨_, h9, by decide, by decide, by decide, by decide, by decide⟩

end GoMigrate
